import Mathlib

/-!
Verification of the EcoSort-AI waste-classification pipeline.

The repository has two near-duplicate presentation shells:
* `src/GUI.py` — a Tkinter desktop shell (modelled in namespace `GUI`);
* `src/app.py` — a Streamlit web shell (modelled in namespace `App`).

Shared pieces (the `np.argmax` result interpreter, the image preprocessor,
Python `dict.get` lookup semantics and number formatting) are modelled at the
top level.  Probabilities and pixel values are modelled as rationals; Python
dictionaries become association lists (their keys are distinct string
literals, so first-match lookup coincides with dict lookup).
-/

namespace EcoSort

/-- Python `d.get(k)` on a dict modelled as an association list. -/
def pyGet {α : Type} (d : List (String × α)) (k : String) : Option α :=
  List.lookup k d

/-- Python `d.get(k, v)`: lookup with a default. -/
def pyGetD {α : Type} (d : List (String × α)) (k : String) (v : α) : α :=
  (pyGet d k).getD v

/-- Uppercasing of one ASCII character. -/
def asciiUpper (c : Char) : Char :=
  if 'a' ≤ c ∧ c ≤ 'z' then Char.ofNat (c.toNat - 32) else c

/-- Python `str.upper()` restricted to the ASCII label strings used here
(on ASCII, CPython uppercases exactly the letters `a`-`z`). -/
def strUpper (s : String) : String :=
  ⟨s.data.map asciiUpper⟩

/-- `numpy.argmax`: the index of the first occurrence of the maximum entry.
Both shells apply it to the model's probability vector
(`GUI.py` line 322, `app.py` line 248). -/
def argmaxIdx : List ℚ → ℕ
  | [] => 0
  | [_] => 0
  | x :: y :: ys =>
    if x < (y :: ys).getD (argmaxIdx (y :: ys)) 0 then argmaxIdx (y :: ys) + 1 else 0

/-- CPython `f"{x:.2f}"` (round-half-even to two decimals) applied to the
non-negative confidence percentages produced by the pipeline, computed on
the exact rational value `q = q.num / q.den` via integer arithmetic: the
number of cents is `⌊100q⌋`, bumped by one when the remaining fraction
exceeds one half, or equals one half with an odd cent count. -/
def fmt2 (q : ℚ) : String :=
  let n := (100 * q.num).toNat
  let d := q.den
  let fl := n / d
  let r2 := n % d
  let cents :=
    if d < 2 * r2 then fl + 1
    else if 2 * r2 < d then fl
    else if fl % 2 = 0 then fl else fl + 1
  let whole := cents / 100
  let c2 := cents % 100
  toString whole ++ "." ++ (if c2 < 10 then "0" ++ toString c2 else toString c2)

/-- CPython `str()` of the floats appearing in the desktop fact table: all
of them are exact non-negative tenths, printed with one decimal digit. -/
def floatStr1 (q : ℚ) : String :=
  let n := q.num.toNat
  let d := q.den
  toString (n / d) ++ "." ++ toString (n * 10 / d % 10)

namespace GUI

/-- `GUI.py` lines 29-30.  Note the leading space in the residual-waste
label `" Other Trash"`, exactly as in the source. -/
def CLASS_LABELS : List String :=
  ["battery", "biological", "brown-glass", "cardboard", "clothes",
   "green-glass", "metal", "paper", "plastic", "shoes", " Other Trash", "white-glass"]

/-- The record type of one `WASTE_INFO` entry in `GUI.py` (lines 33-142):
five text facts and two numeric metrics. -/
structure WasteFact where
  description : String
  recycle : String
  hazard : String
  time : String
  carbon_saving_kg_per_kg : ℚ
  landfill_reduction_m3_per_ton : ℚ
  tip : String
  deriving DecidableEq

/-- `GUI.py` `WASTE_INFO` (lines 33-142), in source order. -/
def WASTE_INFO : List (String × WasteFact) :=
  [("battery",
    { description := "Batteries contain heavy metals (lead, cadmium, mercury) and are harmful.",
      recycle := "Return to e-waste / battery collection centers. Do not throw in household Other Trash.",
      hazard := "High — toxic if leaked into soil/water.",
      time := "100+ years",
      carbon_saving_kg_per_kg := 8.0,
      landfill_reduction_m3_per_ton := 0.5,
      tip := "Tape terminals and store for safe transport to recycling center." }),
   ("biological",
    { description := "Organic waste (food scraps, garden waste) that is biodegradable.",
      recycle := "Compost or municipal organic waste collections / anaerobic digesters.",
      hazard := "Low if composted correctly; avoid mixing with plastics.",
      time := "2–12 weeks (compostable)",
      carbon_saving_kg_per_kg := 0.2,
      landfill_reduction_m3_per_ton := 0.8,
      tip := "Keep moist and balanced (greens/browns) for efficient composting." }),
   ("brown-glass",
    { description := "Brown (amber) glass bottles and jars used for beverages.",
      recycle := "Rinse and drop at glass recycling points; separate colors if your local scheme requires it.",
      hazard := "Low (physical hazard if broken).",
      time := "Non-biodegradable (effectively infinite)",
      carbon_saving_kg_per_kg := 0.5,
      landfill_reduction_m3_per_ton := 0.6,
      tip := "Keep clean; remove lids if required by local rules." }),
   ("cardboard",
    { description := "Boxes, cartons and corrugated cardboard.",
      recycle := "Flatten, remove contaminants, and recycle with paper/cardboard streams.",
      hazard := "Low.",
      time := "2 months (varies)",
      carbon_saving_kg_per_kg := 1.2,
      landfill_reduction_m3_per_ton := 3.0,
      tip := "Break down boxes to save space and speed recycling." }),
   ("clothes",
    { description := "Textiles and garments (natural and synthetic).",
      recycle := "Donate wearable items; textile-recycling programs convert fibers to new products.",
      hazard := "Moderate due to dyes and mixed materials.",
      time := "Months to years",
      carbon_saving_kg_per_kg := 2.0,
      landfill_reduction_m3_per_ton := 2.5,
      tip := "Donate or upcycle instead of discarding." }),
   ("green-glass",
    { description := "Green glass bottles/jars.",
      recycle := "Recycle at glass collection; can be infinitely recycled.",
      hazard := "Low (if broken physical hazard).",
      time := "Non-biodegradable",
      carbon_saving_kg_per_kg := 0.5,
      landfill_reduction_m3_per_ton := 0.6,
      tip := "Rinse and separate if required." }),
   ("metal",
    { description := "Cans, tins and scrap metals (aluminium, steel).",
      recycle := "Very recyclable — take to scrap dealers or metal recycling bins.",
      hazard := "Low, but sharp edges can cause injury.",
      time := "50–200 years",
      carbon_saving_kg_per_kg := 10.0,
      landfill_reduction_m3_per_ton := 1.8,
      tip := "Crush cans to save space and rinse leftover contents." }),
   ("paper",
    { description := "Newspapers, office paper, magazines.",
      recycle := "Recycle in paper stream; keep dry and free of food contamination.",
      hazard := "Low.",
      time := "2–6 weeks",
      carbon_saving_kg_per_kg := 1.4,
      landfill_reduction_m3_per_ton := 3.3,
      tip := "Reuse sheets for notes or crafts before recycling." }),
   ("plastic",
    { description := "Plastic packaging, bottles, containers (various resin codes).",
      recycle := "Check local acceptance; PET & HDPE widely accepted; others vary.",
      hazard := "High — microplastics and long-term persistence in environment.",
      time := "100s to 1000s of years",
      carbon_saving_kg_per_kg := 2.5,
      landfill_reduction_m3_per_ton := 2.0,
      tip := "Rinse and sort by type if possible; avoid single-use plastics." }),
   ("shoes",
    { description := "Footwear (synthetic and natural materials).",
      recycle := "Donate if wearable; certain programs recycle soles into surfaces/insulation.",
      hazard := "Moderate — mixed materials hard to recycle.",
      time := "25–40 years for synthetics",
      carbon_saving_kg_per_kg := 0.8,
      landfill_reduction_m3_per_ton := 1.1,
      tip := "Repair or donate before recycling/disposal." }),
   ("Other Trash",
    { description := "Non-recyclable residual waste (mixed contaminants).",
      recycle := "Not recyclable. Reduce by source separation; follow municipal guidance.",
      hazard := "Varies; can contain hazardous items.",
      time := "Varies widely",
      carbon_saving_kg_per_kg := 0.0,
      landfill_reduction_m3_per_ton := 0.0,
      tip := "Segregate recyclables and hazardous waste first." }),
   ("white-glass",
    { description := "Clear/white glass bottles/jars.",
      recycle := "Highly recyclable; separate by color if required.",
      hazard := "Low (broken glass hazard).",
      time := "Non-biodegradable",
      carbon_saving_kg_per_kg := 0.5,
      landfill_reduction_m3_per_ton := 0.6,
      tip := "Rinse and recycle." })]

/-- `GUI.py` `RECYCLABILITY_SCORE` (lines 145-148). -/
def RECYCLABILITY_SCORE : List (String × ℕ) :=
  [("battery", 10), ("biological", 90), ("brown-glass", 85), ("cardboard", 95),
   ("clothes", 60), ("green-glass", 85), ("metal", 98), ("paper", 96),
   ("plastic", 50), ("shoes", 40), ("Other Trash", 10), ("white-glass", 85)]

/-- `WASTE_INFO.get(class_name, {})` followed by `.get(field, "N/A")`
(`GUI.py` lines 331, 339-343): every stored record carries every field, so a
field read falls back to `"N/A"` exactly when the label itself is absent. -/
def fieldOf (cn : String) (f : WasteFact → String) : String :=
  match pyGet WASTE_INFO cn with
  | some r => f r
  | none => "N/A"

/-- `RECYCLABILITY_SCORE.get(class_name, 0)` — `GUI.py` line 332. -/
def recScoreOf (cn : String) : ℕ :=
  pyGetD RECYCLABILITY_SCORE cn 0

/-- `info.get("carbon_saving_kg_per_kg", ... 0.0)` — `GUI.py` line 333. -/
def carbonOf (cn : String) : ℚ :=
  match pyGet WASTE_INFO cn with
  | some r => r.carbon_saving_kg_per_kg
  | none => 0

/-- `info.get("landfill_reduction_m3_per_ton", ... 0.0)` — `GUI.py` line 334. -/
def landfillOf (cn : String) : ℚ :=
  match pyGet WASTE_INFO cn with
  | some r => r.landfill_reduction_m3_per_ton
  | none => 0

/-- Dashboard recyclability label, `GUI.py` line 352. -/
def recycLabelOf (cn : String) : String :=
  "Recyclability Score: " ++ toString (recScoreOf cn) ++ "/100"

/-- Dashboard carbon label, `GUI.py` line 353. -/
def carbonLabelOf (cn : String) : String :=
  "Carbon saving (kg/kg): " ++ floatStr1 (carbonOf cn)

/-- Dashboard landfill label, `GUI.py` line 354. -/
def landfillLabelOf (cn : String) : String :=
  "Landfill reduction (m³/ton): " ++ floatStr1 (landfillOf cn)

/-- Prediction header, `GUI.py` line 328. -/
def predHeaderOf (cn : String) (conf : ℚ) : String :=
  "🔎 Predicted: " ++ strUpper cn ++ " (" ++ fmt2 conf ++ "%)"

/-- The details text block, `GUI.py` lines 336-347. -/
def detailsTextOf (cn : String) (conf : ℚ) : String :=
  "🗑️ Class: " ++ strUpper cn ++ "\n" ++
  "📊 Confidence: " ++ fmt2 conf ++ "%\n\n" ++
  "📖 Description:\n" ++ fieldOf cn (fun r => r.description) ++ "\n\n" ++
  "♻️ How to Recycle:\n" ++ fieldOf cn (fun r => r.recycle) ++ "\n\n" ++
  "⚠️ Hazard Level:\n" ++ fieldOf cn (fun r => r.hazard) ++ "\n\n" ++
  "⏳ Estimated Decomposition Time: " ++ fieldOf cn (fun r => r.time) ++ "\n\n" ++
  "💡 Eco Tip: " ++ fieldOf cn (fun r => r.tip) ++ "\n\n" ++
  "Suggested Disposal / Action:\n" ++
  "- Segregate from other waste streams.\n" ++
  "- Take to local recycling / hazardous collection if applicable.\n"

/-- The widget state of `EcoSortGUI` that `_predict_image`, `upload_image`
and `download_pdf` read or write (`GUI.py` lines 225-281).  Labels showing
a number are stored as their rendered strings; the wall-clock timestamp and
the preview rendering are omitted. -/
structure UIState where
  uploadedPath : Option String
  predHeader : String
  confBar : ℚ
  detailsText : String
  recycLabel : String
  carbonLabel : String
  landfillLabel : String
  lastPrediction : Option (String × ℚ × List ℚ)
  deriving DecidableEq

/-- The widget state right after `EcoSortGUI.__init__` (`GUI.py` lines
225-281): placeholder texts, empty details, no prediction. -/
def initState : UIState :=
  { uploadedPath := none,
    predHeader := "Upload an image to start",
    confBar := 0,
    detailsText := "",
    recycLabel := "Recyclability Score: N/A",
    carbonLabel := "Carbon saving (kg/kg): N/A",
    landfillLabel := "Landfill reduction (m³/ton): N/A",
    lastPrediction := none }

/-- `EcoSortGUI._predict_image` (`GUI.py` lines 308-365).  `outcome` is the
probability vector returned by `model.predict`, or `none` when the predict
step raises.  The returned flag records whether the error dialog was shown.
The code first writes "Analyzing image...", zeroes the confidence bar and
clears the details text (lines 311-313); only then does it run the model, so
a failing predict leaves those three widgets in that intermediate state while
`last_prediction` keeps its previous value. -/
def predictImage (s : UIState) (outcome : Option (List ℚ)) : UIState × Bool :=
  let s1 : UIState := { s with predHeader := "Analyzing image...", confBar := 0, detailsText := "" }
  match outcome with
  | none => (s1, true)
  | some preds =>
    let idx := argmaxIdx preds
    let cn := CLASS_LABELS.getD idx ""
    let conf := preds.getD idx 0 * 100
    ({ s1 with
        predHeader := predHeaderOf cn conf,
        confBar := conf,
        detailsText := detailsTextOf cn conf,
        recycLabel := recycLabelOf cn,
        carbonLabel := carbonLabelOf cn,
        landfillLabel := landfillLabelOf cn,
        lastPrediction := some (cn, conf, preds) }, false)

/-- `EcoSortGUI.upload_image` (`GUI.py` lines 284-291): stores the chosen
path, then runs `_predict_image` on it. -/
def uploadImage (s : UIState) (path : String) (outcome : Option (List ℚ)) : UIState × Bool :=
  predictImage { s with uploadedPath := some path } outcome

/-- Bold prediction line of the desktop PDF, `GUI.py` line 432. -/
def pdfPredLine (cn : String) (conf : ℚ) : String :=
  "Predicted Class: " ++ strUpper cn ++ " (" ++ fmt2 conf ++ "%)"

/-- `RECYCLABILITY_SCORE.get(class_name, "N/A")` as rendered into the PDF
score line — `GUI.py` line 442. -/
def pdfScoreStr (cn : String) : String :=
  match pyGet RECYCLABILITY_SCORE cn with
  | some n => toString n
  | none => "N/A"

/-- `info.get("carbon_saving_kg_per_kg", "N/A")` rendered — `GUI.py` line 443. -/
def pdfCarbonStr (cn : String) : String :=
  match pyGet WASTE_INFO cn with
  | some r => floatStr1 r.carbon_saving_kg_per_kg
  | none => "N/A"

/-- `info.get("landfill_reduction_m3_per_ton", "N/A")` rendered — line 444. -/
def pdfLandfillStr (cn : String) : String :=
  match pyGet WASTE_INFO cn with
  | some r => floatStr1 r.landfill_reduction_m3_per_ton
  | none => "N/A"

/-- The eight labeled fact lines of the desktop PDF, `GUI.py` lines 436-445. -/
def pdfLines (cn : String) : List String :=
  ["Description: " ++ fieldOf cn (fun r => r.description),
   "How to Recycle: " ++ fieldOf cn (fun r => r.recycle),
   "Hazard: " ++ fieldOf cn (fun r => r.hazard),
   "Estimated Decomposition Time: " ++ fieldOf cn (fun r => r.time),
   "Eco Tip: " ++ fieldOf cn (fun r => r.tip),
   "Recyclability Score: " ++ pdfScoreStr cn ++ "/100",
   "Carbon saving (kg/kg): " ++ pdfCarbonStr cn,
   "Landfill reduction (m³/ton): " ++ pdfLandfillStr cn]

/-- The content `EcoSortGUI.download_pdf` lays out (`GUI.py` lines 394-461):
the embedded copy of `self.uploaded_path`, the bold prediction line, the
eight fact lines, and the confidence chart drawn from the stored vector. -/
structure PdfReport where
  embeddedImagePath : Option String
  predLine : String
  factLines : List String
  chartPreds : List ℚ
  deriving DecidableEq

/-- `EcoSortGUI.download_pdf` (`GUI.py` lines 383-472): with no stored
prediction it only shows a warning (`none`); otherwise it renders the stored
`last_prediction` next to the currently uploaded image. -/
def downloadPdf (s : UIState) : Option PdfReport :=
  match s.lastPrediction with
  | none => none
  | some (cn, conf, preds) =>
    some { embeddedImagePath := s.uploadedPath,
           predLine := pdfPredLine cn conf,
           factLines := pdfLines cn,
           chartPreds := preds }

end GUI

namespace App

/-- `app.py` lines 23-24.  Here the residual-waste label is spelled
`"Other Trash"` with no leading space. -/
def CLASS_LABELS : List String :=
  ["battery", "biological", "brown-glass", "cardboard", "clothes",
   "green-glass", "metal", "paper", "plastic", "shoes", "Other Trash", "white-glass"]

/-- The record type of one `WASTE_INFO` entry in `app.py` (lines 26-135):
in this shell every field, including the two metrics, is a string. -/
structure WasteFact where
  description : String
  recycle : String
  hazard : String
  time : String
  carbon_saving : String
  landfill_reduction : String
  tip : String
  deriving DecidableEq

/-- `app.py` `WASTE_INFO` (lines 26-135), in source order.  Its residual
key is `"trash"`, not `"Other Trash"`. -/
def WASTE_INFO : List (String × WasteFact) :=
  [("battery",
    { description := "Batteries contain heavy metals that pollute soil and water.",
      recycle := "Return to e-waste collection centers.",
      hazard := "⚠️ High (toxic chemicals)",
      time := "100+ years",
      carbon_saving := "8 kg/kg",
      landfill_reduction := "0.5 m³/ton",
      tip := "Tape battery terminals before disposal." }),
   ("biological",
    { description := "Organic waste such as food scraps and garden waste.",
      recycle := "Compost at home or community bins.",
      hazard := "✅ Low",
      time := "2–12 weeks",
      carbon_saving := "0.2 kg/kg",
      landfill_reduction := "0.8 m³/ton",
      tip := "Mix green and brown waste for efficient composting." }),
   ("plastic",
    { description := "Plastics are non-biodegradable and harmful to oceans.",
      recycle := "Send to authorized recycling plants.",
      hazard := "⚠️ Medium-High",
      time := "500–1000 years",
      carbon_saving := "2.5 kg/kg",
      landfill_reduction := "1.2 m³/ton",
      tip := "Prefer reusable alternatives over single-use plastic." }),
   ("cardboard",
    { description := "Recyclable paper-based material used in packaging.",
      recycle := "Flatten and place in paper recycling bins.",
      hazard := "✅ Low",
      time := "2 months",
      carbon_saving := "1.5 kg/kg",
      landfill_reduction := "0.9 m³/ton",
      tip := "Keep cardboard dry to ensure recyclability." }),
   ("clothes",
    { description := "Textiles that can often be reused or recycled.",
      recycle := "Donate wearable clothes, recycle unusable fabric.",
      hazard := "⚠️ Medium (dyes, microfibers)",
      time := "1–5 years",
      carbon_saving := "3 kg/kg",
      landfill_reduction := "0.6 m³/ton",
      tip := "Repurpose old clothes into cleaning rags." }),
   ("brown-glass",
    { description := "Brown-tinted glass, often used in bottles.",
      recycle := "Sort by color and recycle at glass facilities.",
      hazard := "⚠️ Medium (sharp edges)",
      time := "❌ Never (doesn’t decompose)",
      carbon_saving := "0.6 kg/kg",
      landfill_reduction := "1.3 m³/ton",
      tip := "Rinse bottles before recycling." }),
   ("green-glass",
    { description := "Green-colored glass containers.",
      recycle := "Sort by color for recycling.",
      hazard := "⚠️ Medium (sharp edges)",
      time := "❌ Never",
      carbon_saving := "0.6 kg/kg",
      landfill_reduction := "1.3 m³/ton",
      tip := "Avoid mixing with other glass colors." }),
   ("white-glass",
    { description := "Clear glass containers and jars.",
      recycle := "Recycle separately from colored glass.",
      hazard := "⚠️ Medium (sharp edges)",
      time := "❌ Never",
      carbon_saving := "0.6 kg/kg",
      landfill_reduction := "1.3 m³/ton",
      tip := "Remove caps and lids before recycling." }),
   ("metal",
    { description := "Includes aluminum cans and steel products.",
      recycle := "Rinse and recycle through metal facilities.",
      hazard := "⚠️ Medium (sharp edges, rust)",
      time := "50–200 years",
      carbon_saving := "9 kg/kg",
      landfill_reduction := "1.4 m³/ton",
      tip := "Crush cans to save space." }),
   ("paper",
    { description := "Common recyclable material made from wood pulp.",
      recycle := "Recycle clean, dry paper.",
      hazard := "✅ Low",
      time := "2–6 weeks",
      carbon_saving := "1.2 kg/kg",
      landfill_reduction := "1.1 m³/ton",
      tip := "Avoid recycling greasy or wet paper." }),
   ("shoes",
    { description := "Footwear made from mixed materials (rubber, leather, fabric).",
      recycle := "Donate wearable shoes, recycle rubber soles.",
      hazard := "⚠️ Medium (synthetics take long to decompose)",
      time := "25–40 years",
      carbon_saving := "2 kg/kg",
      landfill_reduction := "0.4 m³/ton",
      tip := "Reuse old shoes for gardening or outdoor activities." }),
   ("trash",
    { description := "General waste that cannot be recycled.",
      recycle := "Dispose of in municipal solid waste bins.",
      hazard := "⚠️ High (landfill pollution)",
      time := "Varies (decades to never)",
      carbon_saving := "0 (non-recyclable)",
      landfill_reduction := "❌ None",
      tip := "Reduce trash by practicing 3Rs: Reduce, Reuse, Recycle." })]

/-- `app.py` `RECYCLABILITY_SCORE` (lines 138-142): this map does use the
`"Other Trash"` spelling. -/
def RECYCLABILITY_SCORE : List (String × ℕ) :=
  [("battery", 10), ("biological", 90), ("brown-glass", 85), ("cardboard", 95),
   ("clothes", 60), ("green-glass", 85), ("metal", 98), ("paper", 96),
   ("plastic", 50), ("shoes", 40), ("Other Trash", 10), ("white-glass", 85)]

/-- `WASTE_INFO.get(class_name, {}).get(field, "N/A")` as used for every
text field of the web dashboard (`app.py` lines 260-273) and the PDF lines
(lines 193-201). -/
def fieldOf (cn : String) (f : WasteFact → String) : String :=
  match pyGet WASTE_INFO cn with
  | some r => f r
  | none => "N/A"

/-- `RECYCLABILITY_SCORE.get(class_name, 50)` — the score handed to the
donut chart, `app.py` line 276. -/
def chartScoreOf (cn : String) : ℕ :=
  pyGetD RECYCLABILITY_SCORE cn 50

/-- The matplotlib pie call made by `recyclability_chart`
(`app.py` lines 167-172): wedge values, wedge labels, colors, start angle,
direction, ring width and edge color. -/
structure PieChart where
  wedges : List ℤ
  wedgeLabels : List String
  colors : List String
  startangle : ℤ
  counterclock : Bool
  ringWidth : ℚ
  edgecolor : String
  deriving DecidableEq

/-- `recyclability_chart(score)` (`app.py` lines 167-172): a pure function
of the score — it draws `[score, 100-score]` with a fixed color pair, start
angle 90, clockwise direction and ring width 0.3. -/
def recyclability_chart (score : ℤ) : PieChart :=
  { wedges := [score, 100 - score],
    wedgeLabels := [toString score ++ "% Recyclable", ""],
    colors := ["#27AE60", "#E5E8E8"],
    startangle := 90,
    counterclock := false,
    ringWidth := 3 / 10,
    edgecolor := "white" }

/-- `RECYCLABILITY_SCORE.get(class_name, "N/A")` rendered into the web PDF
score line — `app.py` line 199. -/
def pdfScoreStr (cn : String) : String :=
  match pyGet RECYCLABILITY_SCORE cn with
  | some n => toString n
  | none => "N/A"

/-- The eight labeled fact lines of the web PDF, `app.py` lines 193-202. -/
def pdfLines (cn : String) : List String :=
  ["Description: " ++ fieldOf cn (fun r => r.description),
   "Recycle: " ++ fieldOf cn (fun r => r.recycle),
   "Hazard: " ++ fieldOf cn (fun r => r.hazard),
   "Decomposition Time: " ++ fieldOf cn (fun r => r.time),
   "Eco Tip: " ++ fieldOf cn (fun r => r.tip),
   "Recyclability Score: " ++ pdfScoreStr cn ++ "/100",
   "Carbon saving: " ++ fieldOf cn (fun r => r.carbon_saving),
   "Landfill reduction: " ++ fieldOf cn (fun r => r.landfill_reduction)]

end App

/-- The result-interpretation step of the desktop shell (`GUI.py` lines
322-324): arg-max index, label from `CLASS_LABELS`, confidence = entry × 100. -/
def guiInterpret (preds : List ℚ) : String × ℚ :=
  (GUI.CLASS_LABELS.getD (argmaxIdx preds) "", preds.getD (argmaxIdx preds) 0 * 100)

/-- The result-interpretation step of the web shell (`app.py` lines 248-250). -/
def appInterpret (preds : List ℚ) : String × ℚ :=
  (App.CLASS_LABELS.getD (argmaxIdx preds) "", preds.getD (argmaxIdx preds) 0 * 100)

/-- The stub classifier vector of the end-to-end scenario: all mass on
index 0. -/
def stubPreds : List ℚ :=
  [1, 0, 0, 0, 0, 0, 0, 0, 0, 0, 0, 0]

/-- A decoded PIL image: positive dimensions, some number of 8-bit channels
per pixel (the color mode).  `pix r c k` is channel `k` of the pixel at row
`r`, column `c`. -/
structure RawImage where
  height : ℕ
  width : ℕ
  channels : ℕ
  hpos : 0 < height
  wpos : 0 < width
  pix : ℕ → ℕ → ℕ → Fin 256

/-- A PIL image in mode RGB: three 8-bit channels per pixel. -/
structure RGBImage where
  height : ℕ
  width : ℕ
  hpos : 0 < height
  wpos : 0 < width
  pix : ℕ → ℕ → Fin 3 → Fin 256

/-- `Image.convert("RGB")` (`GUI.py` line 317, `app.py` line 243): same
size, three 8-bit channels.  The per-mode channel formulas are PIL
internals; the pipeline relies only on the size and the 8-bit range, so the
conversion is modelled as channel selection/replication. -/
def convertRGB (img : RawImage) : RGBImage :=
  { height := img.height, width := img.width, hpos := img.hpos, wpos := img.wpos,
    pix := fun r c ch => img.pix r c (min ch.val (img.channels - 1)) }

/-- `img.resize((224, 224))` (`GUI.py` line 317, `app.py` line 154): PIL
returns an 8-bit RGB image of the requested size whatever the resampling
filter; the sample positions are modelled by nearest-index sampling. -/
def resize224 (img : RGBImage) (r c : ℕ) (ch : Fin 3) : Fin 256 :=
  img.pix (r * img.height / 224) (c * img.width / 224) ch

/-- The Image Preprocessor: decode → convert to RGB → resize to 224×224 →
divide by 255 → add a leading batch dimension (`GUI.py` lines 317-319;
`app.py` line 243 with `preprocess_image`, lines 153-156).  The tensor is a
nested list with axes (batch, row, column, channel). -/
def preprocess_image (raw : RawImage) : List (List (List (List ℚ))) :=
  [(List.range 224).map (fun r =>
    (List.range 224).map (fun c =>
      (List.finRange 3).map (fun ch =>
        ((resize224 (convertRGB raw) r c ch).val : ℚ) / 255)))]

namespace GUI

/-- The `finally` block of `download_pdf` (`GUI.py` lines 466-472): remove
each recorded temp file, swallowing individual removal errors. -/
def pdfCleanup (tmps disk : List String) : List String :=
  disk.filter (fun f => !(tmps.contains f))

/-- File-level trace of `EcoSortGUI.download_pdf` (`GUI.py` lines 396-472)
for an upload that exists.  Returns (success, temp files left on disk).
Failure points: `imageFail` — re-opening/saving the uploaded image raises
(lines 402-405), after its temp file was created (line 401) but before it
was recorded in `tmp_files` (line 406); `chartFail` — `fig.savefig` raises
(line 411) after the chart temp was created (line 410) but before it was
recorded (line 412); `drawFail` — the PDF drawing or save raises (lines
417-464) with both temps recorded.  The `finally` block removes exactly the
recorded files. -/
def downloadPdfRun (imageFail chartFail drawFail : Bool) : Bool × List String :=
  let disk1 := ["tmp_img.jpg"]
  if imageFail then (false, pdfCleanup [] disk1)
  else
    let tmps1 := ["tmp_img.jpg"]
    let disk2 := disk1 ++ ["tmp_chart.png"]
    if chartFail then (false, pdfCleanup tmps1 disk2)
    else
      let tmps2 := tmps1 ++ ["tmp_chart.png"]
      if drawFail then (false, pdfCleanup tmps2 disk2)
      else (true, pdfCleanup tmps2 disk2)

end GUI

namespace App

/-- File-level trace of `generate_pdf` (`app.py` lines 174-218).  The
returned PDF file itself (`tmp_file`, line 175) is the exported artifact
handed back to the caller; `img_embed.png` is the temp created to embed the
uploaded image (line 211).  `drawFail` — `c.drawImage` raises (line 213):
the `os.remove` on line 214 is then never reached, since there is no
`try`/`finally` here. -/
def generatePdfRun (drawFail : Bool) : Bool × List String :=
  let disk1 := ["report.pdf", "img_embed.png"]
  if drawFail then (false, disk1)
  else (true, disk1.filter (fun f => f ≠ "img_embed.png"))

end App

/-- A concrete desktop widget state as it stands after a successful
"battery" prediction: used to exhibit what a subsequently failing predict
call does to it. -/
def priorState : GUI.UIState :=
  { uploadedPath := some "old.jpg",
    predHeader := "🔎 Predicted: BATTERY (100.00%)",
    confBar := 100,
    detailsText := "prior details",
    recycLabel := "Recyclability Score: 10/100",
    carbonLabel := "Carbon saving (kg/kg): 8.0",
    landfillLabel := "Landfill reduction (m³/ton): 0.5",
    lastPrediction := some ("battery", 100, stubPreds) }

/-! ## Properties of the arg-max interpreter -/

theorem argmaxIdx_lt : ∀ (l : List ℚ), l ≠ [] → argmaxIdx l < l.length
  | [], h => absurd rfl h
  | [_], _ => by simp [argmaxIdx]
  | x :: y :: ys, _ => by
    have ih := argmaxIdx_lt (y :: ys) (by simp)
    by_cases hc : x < (y :: ys).getD (argmaxIdx (y :: ys)) 0
    · simp only [argmaxIdx, if_pos hc, List.length_cons] at ih ⊢
      omega
    · simp only [argmaxIdx, if_neg hc, List.length_cons]
      omega

theorem argmaxIdx_is_max : ∀ (l : List ℚ) (j : ℕ), j < l.length →
    l.getD j 0 ≤ l.getD (argmaxIdx l) 0
  | [], j, h => by simp at h
  | [x], j, h => by
    have hj : j = 0 := by simpa using Nat.lt_one_iff.mp (by simpa using h)
    subst hj
    simp [argmaxIdx]
  | x :: y :: ys, j, h => by
    by_cases hc : x < (y :: ys).getD (argmaxIdx (y :: ys)) 0
    · simp only [argmaxIdx, if_pos hc, List.getD_cons_succ]
      cases j with
      | zero => simpa [List.getD_cons_zero] using le_of_lt hc
      | succ k =>
        rw [List.getD_cons_succ]
        exact argmaxIdx_is_max (y :: ys) k (by simp only [List.length_cons] at h ⊢; omega)
    · push_neg at hc
      simp only [argmaxIdx, if_neg (not_lt.mpr hc), List.getD_cons_zero]
      cases j with
      | zero => simp [List.getD_cons_zero]
      | succ k =>
        rw [List.getD_cons_succ]
        exact le_trans
          (argmaxIdx_is_max (y :: ys) k (by simp only [List.length_cons] at h ⊢; omega)) hc

theorem argmaxIdx_first : ∀ (l : List ℚ) (j : ℕ), j < argmaxIdx l →
    l.getD j 0 < l.getD (argmaxIdx l) 0
  | [], j, h => by simp [argmaxIdx] at h
  | [x], j, h => by simp [argmaxIdx] at h
  | x :: y :: ys, j, h => by
    by_cases hc : x < (y :: ys).getD (argmaxIdx (y :: ys)) 0
    · simp only [argmaxIdx, if_pos hc, List.getD_cons_succ] at h ⊢
      cases j with
      | zero => simpa [List.getD_cons_zero] using hc
      | succ k =>
        rw [List.getD_cons_succ]
        exact argmaxIdx_first (y :: ys) k (by omega)
    · simp only [argmaxIdx, if_neg hc] at h
      omega

/-! ## The claims -/

/-- C1.  The claim states that every label the Classifier Adapter can emit
has an entry in `WASTE_INFO` and in `RECYCLABILITY_SCORE` in both shells.
The code violates it at the residual-waste label: the desktop shell emits
`" Other Trash"` (leading space) while both of its maps key `"Other Trash"`,
and the web shell emits `"Other Trash"` while its `WASTE_INFO` keys
`"trash"`.  All eleven other labels hit every map, and every web label hits
the web `RECYCLABILITY_SCORE`. -/
theorem c1_adapter_label_lookup_misses :
    " Other Trash" ∈ GUI.CLASS_LABELS ∧
    pyGet GUI.WASTE_INFO " Other Trash" = none ∧
    pyGet GUI.RECYCLABILITY_SCORE " Other Trash" = none ∧
    "Other Trash" ∈ App.CLASS_LABELS ∧
    pyGet App.WASTE_INFO "Other Trash" = none ∧
    (∀ l ∈ GUI.CLASS_LABELS, l ≠ " Other Trash" →
      (pyGet GUI.WASTE_INFO l).isSome ∧ (pyGet GUI.RECYCLABILITY_SCORE l).isSome) ∧
    (∀ l ∈ App.CLASS_LABELS, l ≠ "Other Trash" → (pyGet App.WASTE_INFO l).isSome) ∧
    (∀ l ∈ App.CLASS_LABELS, (pyGet App.RECYCLABILITY_SCORE l).isSome) := by
  decide

/-- C2.  For every probability vector of length 12 the interpreter of both
shells picks the arg-max index with ties resolved by lowest index (the
chosen entry dominates every entry, and strictly dominates every earlier
entry), the predicted label is `CLASS_LABELS` at that index, and the
confidence is that entry times 100. -/
theorem c2_result_interpreter_argmax (preds : List ℚ) (hlen : preds.length = 12) :
    argmaxIdx preds < 12 ∧
    (∀ j, j < 12 → preds.getD j 0 ≤ preds.getD (argmaxIdx preds) 0) ∧
    (∀ j, j < argmaxIdx preds → preds.getD j 0 < preds.getD (argmaxIdx preds) 0) ∧
    guiInterpret preds =
      (GUI.CLASS_LABELS.getD (argmaxIdx preds) "", preds.getD (argmaxIdx preds) 0 * 100) ∧
    appInterpret preds =
      (App.CLASS_LABELS.getD (argmaxIdx preds) "", preds.getD (argmaxIdx preds) 0 * 100) := by
  have hne : preds ≠ [] := by
    intro hnil
    rw [hnil] at hlen
    simp at hlen
  refine ⟨?_, ?_, fun j hj => argmaxIdx_first preds j hj, rfl, rfl⟩
  · have := argmaxIdx_lt preds hne
    omega
  · intro j hj
    exact argmaxIdx_is_max preds j (by omega)

/-- Witness for C2: the stub vector with all mass on index 0. -/
theorem c2_result_interpreter_argmax_witness :
    stubPreds.length = 12 ∧
    (argmaxIdx stubPreds < 12 ∧
     (∀ j, j < 12 → stubPreds.getD j 0 ≤ stubPreds.getD (argmaxIdx stubPreds) 0) ∧
     (∀ j, j < argmaxIdx stubPreds →
       stubPreds.getD j 0 < stubPreds.getD (argmaxIdx stubPreds) 0) ∧
     guiInterpret stubPreds =
       (GUI.CLASS_LABELS.getD (argmaxIdx stubPreds) "",
        stubPreds.getD (argmaxIdx stubPreds) 0 * 100) ∧
     appInterpret stubPreds =
       (App.CLASS_LABELS.getD (argmaxIdx stubPreds) "",
        stubPreds.getD (argmaxIdx stubPreds) 0 * 100)) :=
  ⟨by decide, c2_result_interpreter_argmax stubPreds (by decide)⟩

/-- C3.  For every decoded input image — any positive size, any channel
count — the preprocessor returns a tensor of shape (1, 224, 224, 3) whose
values all lie in [0, 1]. -/
theorem c3_preprocessor_shape_range (raw : RawImage) :
    (preprocess_image raw).length = 1 ∧
    ∀ p ∈ preprocess_image raw, p.length = 224 ∧
      ∀ row ∈ p, row.length = 224 ∧
        ∀ px ∈ row, px.length = 3 ∧
          ∀ v ∈ px, 0 ≤ v ∧ v ≤ 1 := by
  refine ⟨rfl, ?_⟩
  intro p hp
  simp only [preprocess_image, List.mem_singleton] at hp
  subst hp
  refine ⟨by simp, ?_⟩
  intro row hrow
  rw [List.mem_map] at hrow
  obtain ⟨r, -, rfl⟩ := hrow
  refine ⟨by simp, ?_⟩
  intro px hpx
  rw [List.mem_map] at hpx
  obtain ⟨c, -, rfl⟩ := hpx
  refine ⟨by simp, ?_⟩
  intro v hv
  rw [List.mem_map] at hv
  obtain ⟨ch, -, rfl⟩ := hv
  constructor
  · positivity
  · rw [div_le_one (by norm_num)]
    have h := (resize224 (convertRGB raw) r c ch).isLt
    have h255 : ((resize224 (convertRGB raw) r c ch).val : ℚ) ≤ 255 := by
      exact_mod_cast Nat.le_of_lt_succ h
    simpa using h255

/-- C4 counterexample.  The claim says that on a Knowledge-Base miss the
recyclability score shown to the user degrades to "N/A" in both shells.
At the desktop-emittable label `" Other Trash"` (absent from both desktop
maps) the desktop dashboard instead shows "Recyclability Score: 0/100",
and the web chart is fed score 50. -/
theorem c4_dashboard_score_not_na_counterexample :
    pyGet GUI.WASTE_INFO " Other Trash" = none ∧
    pyGet GUI.RECYCLABILITY_SCORE " Other Trash" = none ∧
    GUI.recycLabelOf " Other Trash" = "Recyclability Score: 0/100" ∧
    GUI.recycLabelOf " Other Trash" ≠ "Recyclability Score: N/A/100" ∧
    App.chartScoreOf " Other Trash" = 50 := by
  decide

/-- C4 amended.  When the predicted label misses all four maps: every text
fact degrades to "N/A" on the desktop dashboard, the web dashboard and both
PDF exporters, and both PDF exporters also print "N/A" for the score and
the numeric facts; but the desktop dashboard degrades the score to 0 and
the numeric facts to 0.0, and the web donut chart degrades the score to 50.
No surface raises an error (each fallback is total). -/
theorem c4_lookup_miss_fallbacks (cn : String)
    (h1 : pyGet GUI.WASTE_INFO cn = none)
    (h2 : pyGet GUI.RECYCLABILITY_SCORE cn = none)
    (h3 : pyGet App.WASTE_INFO cn = none)
    (h4 : pyGet App.RECYCLABILITY_SCORE cn = none) :
    (∀ f, GUI.fieldOf cn f = "N/A") ∧
    GUI.recScoreOf cn = 0 ∧
    GUI.carbonOf cn = 0 ∧
    GUI.landfillOf cn = 0 ∧
    GUI.recycLabelOf cn = "Recyclability Score: 0/100" ∧
    GUI.carbonLabelOf cn = "Carbon saving (kg/kg): 0.0" ∧
    GUI.landfillLabelOf cn = "Landfill reduction (m³/ton): 0.0" ∧
    GUI.pdfLines cn =
      ["Description: N/A", "How to Recycle: N/A", "Hazard: N/A",
       "Estimated Decomposition Time: N/A", "Eco Tip: N/A",
       "Recyclability Score: N/A/100", "Carbon saving (kg/kg): N/A",
       "Landfill reduction (m³/ton): N/A"] ∧
    (∀ f, App.fieldOf cn f = "N/A") ∧
    App.chartScoreOf cn = 50 ∧
    App.pdfLines cn =
      ["Description: N/A", "Recycle: N/A", "Hazard: N/A", "Decomposition Time: N/A",
       "Eco Tip: N/A", "Recyclability Score: N/A/100", "Carbon saving: N/A",
       "Landfill reduction: N/A"] := by
  refine ⟨fun f => by simp [GUI.fieldOf, h1], ?_, ?_, ?_, ?_, ?_, ?_, ?_,
    fun f => by simp [App.fieldOf, h3], ?_, ?_⟩
  · simp [GUI.recScoreOf, pyGetD, h2]
  · simp [GUI.carbonOf, h1]
  · simp [GUI.landfillOf, h1]
  · simp [GUI.recycLabelOf, GUI.recScoreOf, pyGetD, h2]
    rfl
  · simp [GUI.carbonLabelOf, GUI.carbonOf, h1]
    rfl
  · simp [GUI.landfillLabelOf, GUI.landfillOf, h1]
    rfl
  · simp [GUI.pdfLines, GUI.fieldOf, GUI.pdfScoreStr, GUI.pdfCarbonStr, GUI.pdfLandfillStr,
      h1, h2]
  · simp [App.chartScoreOf, pyGetD, h4]
  · simp [App.pdfLines, App.fieldOf, App.pdfScoreStr, h3, h4]

/-- Witness for C4 amended: the desktop label `" Other Trash"` misses all
four maps. -/
theorem c4_lookup_miss_fallbacks_witness :
    pyGet GUI.WASTE_INFO " Other Trash" = none ∧
    pyGet GUI.RECYCLABILITY_SCORE " Other Trash" = none ∧
    pyGet App.WASTE_INFO " Other Trash" = none ∧
    pyGet App.RECYCLABILITY_SCORE " Other Trash" = none ∧
    ((∀ f, GUI.fieldOf " Other Trash" f = "N/A") ∧
     GUI.recScoreOf " Other Trash" = 0 ∧
     GUI.carbonOf " Other Trash" = 0 ∧
     GUI.landfillOf " Other Trash" = 0 ∧
     GUI.recycLabelOf " Other Trash" = "Recyclability Score: 0/100" ∧
     GUI.carbonLabelOf " Other Trash" = "Carbon saving (kg/kg): 0.0" ∧
     GUI.landfillLabelOf " Other Trash" = "Landfill reduction (m³/ton): 0.0" ∧
     GUI.pdfLines " Other Trash" =
       ["Description: N/A", "How to Recycle: N/A", "Hazard: N/A",
        "Estimated Decomposition Time: N/A", "Eco Tip: N/A",
        "Recyclability Score: N/A/100", "Carbon saving (kg/kg): N/A",
        "Landfill reduction (m³/ton): N/A"] ∧
     (∀ f, App.fieldOf " Other Trash" f = "N/A") ∧
     App.chartScoreOf " Other Trash" = 50 ∧
     App.pdfLines " Other Trash" =
       ["Description: N/A", "Recycle: N/A", "Hazard: N/A", "Decomposition Time: N/A",
        "Eco Tip: N/A", "Recyclability Score: N/A/100", "Carbon saving: N/A",
        "Landfill reduction: N/A"]) :=
  ⟨by decide, by decide, by decide, by decide,
   c4_lookup_miss_fallbacks " Other Trash" (by decide) (by decide) (by decide) (by decide)⟩

/-- C5 counterexample.  With the stub vector the web shell also predicts
"battery", but its hazard text is "⚠️ High (toxic chemicals)", not the
claimed "High — toxic if leaked into soil/water." (that text is the desktop
table's). -/
theorem c5_web_hazard_text_counterexample :
    (appInterpret stubPreds).1 = "battery" ∧
    App.fieldOf "battery" (fun r => r.hazard) = "⚠️ High (toxic chemicals)" ∧
    App.fieldOf "battery" (fun r => r.hazard) ≠ "High — toxic if leaked into soil/water." := by
  decide

/-- C5 amended.  With the stub vector [1,0,...,0] both shells predict
"battery" with confidence 100 (rendered "100.00"), and both report
recyclability 10/100; the hazard text "High — toxic if leaked into
soil/water." is shown by the desktop shell, while the web shell shows
"⚠️ High (toxic chemicals)". -/
theorem c5_stub_battery_scenario :
    (guiInterpret stubPreds).1 = "battery" ∧
    (guiInterpret stubPreds).2 = 100 ∧
    GUI.fieldOf "battery" (fun r => r.hazard) = "High — toxic if leaked into soil/water." ∧
    GUI.recScoreOf "battery" = 10 ∧
    GUI.recycLabelOf "battery" = "Recyclability Score: 10/100" ∧
    (appInterpret stubPreds).1 = "battery" ∧
    (appInterpret stubPreds).2 = 100 ∧
    App.fieldOf "battery" (fun r => r.hazard) = "⚠️ High (toxic chemicals)" ∧
    App.chartScoreOf "battery" = 10 ∧
    App.pdfScoreStr "battery" = "10" ∧
    fmt2 100 = "100.00" := by
  have h0 : argmaxIdx stubPreds = 0 := by decide
  refine ⟨by decide, ?_, by decide, by decide, by decide, by decide, ?_, by decide,
    by decide, by decide, by decide⟩
  · simp only [guiInterpret, h0]
    norm_num [stubPreds]
  · simp only [appInterpret, h0]
    norm_num [stubPreds]

/-- C6 counterexample.  The claim says every temp file created to embed the
image or chart is removed even when the export fails mid-way, in both
exporters.  In the web exporter a failure while drawing the embedded image
(`c.drawImage`, `app.py` line 213) skips the `os.remove` on line 214 and
leaves the image temp file behind. -/
theorem c6_web_temp_leak_counterexample :
    App.generatePdfRun true = (false, ["report.pdf", "img_embed.png"]) ∧
    "img_embed.png" ∈ (App.generatePdfRun true).2 := by
  decide

/-- C6 amended.  The desktop exporter removes every temp file it has
recorded in `tmp_files`, on success and on a drawing failure alike; but a
failure between creating a temp and recording it (re-opening/saving the
uploaded image, or saving the chart) leaks that one file, and the web
exporter removes its image temp only when drawing succeeds. -/
theorem c6_temp_cleanup_amended :
    (∀ d : Bool, (GUI.downloadPdfRun false false d).2 = []) ∧
    GUI.downloadPdfRun true false false = (false, ["tmp_img.jpg"]) ∧
    GUI.downloadPdfRun false true false = (false, ["tmp_chart.png"]) ∧
    App.generatePdfRun false = (true, ["report.pdf"]) ∧
    "img_embed.png" ∈ (App.generatePdfRun true).2 := by
  refine ⟨fun d => ?_, by decide, by decide, by decide, by decide⟩
  cases d <;> rfl

/-- C7 counterexample.  The claim says a failed predict leaves every piece
of prior UI state exactly as it was.  Starting from a state holding a
finished "battery" prediction, a failing predict call leaves the details
text cleared, the header at "Analyzing image..." and the confidence bar at
0 — all three differ from their prior values (only the stored last
prediction survives). -/
theorem c7_failed_predict_mutates_ui_counterexample :
    (GUI.predictImage priorState none).2 = true ∧
    (GUI.predictImage priorState none).1.detailsText = "" ∧
    priorState.detailsText = "prior details" ∧
    (GUI.predictImage priorState none).1.detailsText ≠ priorState.detailsText ∧
    (GUI.predictImage priorState none).1.predHeader = "Analyzing image..." ∧
    (GUI.predictImage priorState none).1.predHeader ≠ priorState.predHeader ∧
    (GUI.predictImage priorState none).1.confBar = 0 ∧
    (GUI.predictImage priorState none).1.confBar ≠ priorState.confBar ∧
    (GUI.predictImage priorState none).1.lastPrediction = priorState.lastPrediction := by
  refine ⟨rfl, rfl, rfl, by decide, rfl, by decide, rfl, ?_, rfl⟩
  intro h
  have : (0 : ℚ) = 100 := h
  norm_num at this

/-- C7 amended.  For every desktop state: a failing predict call surfaces
the error dialog and leaves the stored last prediction, the uploaded path
and the three fact labels untouched, but the prediction header now reads
"Analyzing image...", the confidence bar is 0 and the details text is empty
(the code writes those three widgets before running the model). -/
theorem c7_failed_predict_state (s : GUI.UIState) :
    (GUI.predictImage s none).2 = true ∧
    (GUI.predictImage s none).1.lastPrediction = s.lastPrediction ∧
    (GUI.predictImage s none).1.uploadedPath = s.uploadedPath ∧
    (GUI.predictImage s none).1.recycLabel = s.recycLabel ∧
    (GUI.predictImage s none).1.carbonLabel = s.carbonLabel ∧
    (GUI.predictImage s none).1.landfillLabel = s.landfillLabel ∧
    (GUI.predictImage s none).1.predHeader = "Analyzing image..." ∧
    (GUI.predictImage s none).1.confBar = 0 ∧
    (GUI.predictImage s none).1.detailsText = "" :=
  ⟨rfl, rfl, rfl, rfl, rfl, rfl, rfl, rfl, rfl⟩

/-- C8.  For every score s with 0 ≤ s ≤ 100 the donut chart is built from
exactly the two wedges s and 100−s (summing to 100), with the fixed color
pair, fixed start angle 90, clockwise direction and fixed ring width 0.3;
`recyclability_chart` is a function of the score alone, so the rendering
reads no state other than its argument. -/
theorem c8_recyclability_donut (s : ℤ) (_h1 : 0 ≤ s) (_h2 : s ≤ 100) :
    (App.recyclability_chart s).wedges = [s, 100 - s] ∧
    s + (100 - s) = 100 ∧
    (App.recyclability_chart s).colors = ["#27AE60", "#E5E8E8"] ∧
    (App.recyclability_chart s).startangle = 90 ∧
    (App.recyclability_chart s).counterclock = false ∧
    (App.recyclability_chart s).ringWidth = 3 / 10 ∧
    (App.recyclability_chart s).edgecolor = "white" ∧
    (App.recyclability_chart s).wedgeLabels = [toString s ++ "% Recyclable", ""] :=
  ⟨rfl, by omega, rfl, rfl, rfl, rfl, rfl, rfl⟩

/-- Witness for C8 at score 85. -/
theorem c8_recyclability_donut_witness :
    (0 : ℤ) ≤ 85 ∧ (85 : ℤ) ≤ 100 ∧
    ((App.recyclability_chart 85).wedges = [85, 100 - 85] ∧
     (85 : ℤ) + (100 - 85) = 100 ∧
     (App.recyclability_chart 85).colors = ["#27AE60", "#E5E8E8"] ∧
     (App.recyclability_chart 85).startangle = 90 ∧
     (App.recyclability_chart 85).counterclock = false ∧
     (App.recyclability_chart 85).ringWidth = 3 / 10 ∧
     (App.recyclability_chart 85).edgecolor = "white" ∧
     (App.recyclability_chart 85).wedgeLabels = [toString (85 : ℤ) ++ "% Recyclable", ""]) :=
  ⟨by decide, by decide, c8_recyclability_donut 85 (by decide) (by decide)⟩

/-- C9.  Desktop: a successful prediction on one image followed by an
upload whose prediction fails leaves `uploaded_path` at the new image while
`last_prediction` still holds the earlier result, so `download_pdf` embeds
the new image next to the previous prediction's line, fact lines and chart
vector. -/
theorem c9_stale_prediction_fresh_image (s0 : GUI.UIState) (p1 p2 : String)
    (v1 : List ℚ) (_hlen : v1.length = 12) :
    (GUI.uploadImage (GUI.uploadImage s0 p1 (some v1)).1 p2 none).1.uploadedPath = some p2 ∧
    (GUI.uploadImage (GUI.uploadImage s0 p1 (some v1)).1 p2 none).1.lastPrediction =
      (GUI.uploadImage s0 p1 (some v1)).1.lastPrediction ∧
    (GUI.uploadImage s0 p1 (some v1)).1.lastPrediction =
      some (GUI.CLASS_LABELS.getD (argmaxIdx v1) "", v1.getD (argmaxIdx v1) 0 * 100, v1) ∧
    GUI.downloadPdf (GUI.uploadImage (GUI.uploadImage s0 p1 (some v1)).1 p2 none).1 =
      some { embeddedImagePath := some p2,
             predLine := GUI.pdfPredLine (GUI.CLASS_LABELS.getD (argmaxIdx v1) "")
               (v1.getD (argmaxIdx v1) 0 * 100),
             factLines := GUI.pdfLines (GUI.CLASS_LABELS.getD (argmaxIdx v1) ""),
             chartPreds := v1 } :=
  ⟨rfl, rfl, rfl, rfl⟩

/-- Witness for C9: initial state, two image paths, the stub vector. -/
theorem c9_stale_prediction_fresh_image_witness :
    stubPreds.length = 12 ∧
    ((GUI.uploadImage (GUI.uploadImage GUI.initState "first.jpg" (some stubPreds)).1
        "second.jpg" none).1.uploadedPath = some "second.jpg" ∧
     (GUI.uploadImage (GUI.uploadImage GUI.initState "first.jpg" (some stubPreds)).1
        "second.jpg" none).1.lastPrediction =
       (GUI.uploadImage GUI.initState "first.jpg" (some stubPreds)).1.lastPrediction ∧
     (GUI.uploadImage GUI.initState "first.jpg" (some stubPreds)).1.lastPrediction =
       some (GUI.CLASS_LABELS.getD (argmaxIdx stubPreds) "",
         stubPreds.getD (argmaxIdx stubPreds) 0 * 100, stubPreds) ∧
     GUI.downloadPdf (GUI.uploadImage (GUI.uploadImage GUI.initState "first.jpg"
         (some stubPreds)).1 "second.jpg" none).1 =
       some { embeddedImagePath := some "second.jpg",
              predLine := GUI.pdfPredLine (GUI.CLASS_LABELS.getD (argmaxIdx stubPreds) "")
                (stubPreds.getD (argmaxIdx stubPreds) 0 * 100),
              factLines := GUI.pdfLines (GUI.CLASS_LABELS.getD (argmaxIdx stubPreds) ""),
              chartPreds := stubPreds }) :=
  ⟨by decide,
   c9_stale_prediction_fresh_image GUI.initState "first.jpg" "second.jpg" stubPreds (by decide)⟩

/-- C10.  On a `RECYCLABILITY_SCORE` miss the three surfaces diverge: the
desktop dashboard shows "Recyclability Score: 0/100", the web donut chart
is fed 50 (wedges [50, 50]), and both PDF exporters print "N/A" — at the
desktop-emittable predicted label `" Other Trash"`, which misses both score
maps, the displayed scores "0", "50" and "N/A" are pairwise different. -/
theorem c10_divergent_score_fallbacks :
    " Other Trash" ∈ GUI.CLASS_LABELS ∧
    pyGet GUI.RECYCLABILITY_SCORE " Other Trash" = none ∧
    GUI.recycLabelOf " Other Trash" = "Recyclability Score: 0/100" ∧
    pyGet App.RECYCLABILITY_SCORE " Other Trash" = none ∧
    App.chartScoreOf " Other Trash" = 50 ∧
    (App.recyclability_chart ((App.chartScoreOf " Other Trash" : ℕ) : ℤ)).wedges = [50, 50] ∧
    GUI.pdfScoreStr " Other Trash" = "N/A" ∧
    App.pdfScoreStr " Other Trash" = "N/A" ∧
    ("0" : String) ≠ "50" ∧ ("50" : String) ≠ "N/A" ∧ ("0" : String) ≠ "N/A" := by
  decide

end EcoSort
